import Mathlib

/-!
Shallow embedding of src/h5parse.py (hdf5-viewer): the metadata
summarizer `meta_dict` and the query methods of `H5Instance`, together
with executable models of the external collaborators the code calls
(Python float formatting, numpy 1-D array printing, h5py path
resolution and group iteration).
-/

/-- Element of a materialized dataset payload (one entry of
`obj[()].reshape(-1)` in src/h5parse.py): an ordinary numeric value
(modelled as a rational), a NaN entry, or a value on which numeric
reduction fails (e.g. an element of a compound dtype); `weird` carries
its Python str rendering. -/
inductive Elem where
  | num (q : ℚ)
  | nan
  | weird (s : String)
deriving DecidableEq

instance : Inhabited Elem := ⟨Elem.nan⟩

/-- True for elements on which `np.nanmin`and `np.nanmax` raise. -/
def Elem.isWeird : Elem → Bool
  | .weird _ => true
  | _ => false

/-- Numeric value of an element; `none` for NaN and weird entries
(`np.nanmin`and `np.nanmax` skip NaN entries). -/
def Elem.toNum : Elem → Option ℚ
  | .num q => some q
  | _ => none

/-- Number of decimal digits of a natural number. -/
def decDigits (n : Nat) : Nat := (Nat.repr n).length

/-- Round the fraction n / d (with d positive) to the nearest integer,
ties to even (models the rounding Python uses when formatting floats). -/
def roundFracHE (n d : Int) : Int :=
  let f := n.fdiv d
  let twice := 2 * (n - f * d)
  if twice < d then f
  else if d < twice then f + 1
  else if f % 2 = 0 then f else f + 1

/-- Least k with n * 10 ^ k at least d, for 0 < n < d (the size of the
negative decimal exponent of n / d). -/
def negDecExp (n d : Nat) : Nat :=
  let k0 := decDigits (d / n) - 1
  if d ≤ n * 10 ^ k0 then k0
  else if d ≤ n * 10 ^ (k0 + 1) then k0 + 1 else k0 + 2

/-- Decimal exponent of the positive fraction n / d: the unique e with
10 ^ e <= n / d < 10 ^ (e + 1). -/
def decExpND (n d : Nat) : Int :=
  if d ≤ n then ((decDigits (n / d) - 1 : Nat) : Int)
  else Int.neg ((negDecExp n d : Nat) : Int)

/-- Left-pad a string with a character up to a given length. -/
def padLeft (c : Char) (k : Nat) (s : String) : String :=
  if s.length < k then String.mk (List.replicate (k - s.length) c) ++ s else s

/-- Exponent part of scientific Python float formatting: a sign and at
least two digits, as in "1e+05". -/
def expSuffix (e : Int) : String :=
  let sgn := if e < 0 then "-" else "+"
  sgn ++ padLeft '0' 2 (Nat.repr e.natAbs)

/-- Strip trailing zeros after a decimal point, then a trailing point,
as Python %g formatting does ( "1.200" becomes "1.2", "3.00" becomes "3"). -/
def stripFrac (s : String) : String :=
  if s.toList.contains '.' then
    let r := (s.toList.reverse.dropWhile (fun c => c = '0')).reverse
    let r := if r.getLast? = some '.' then r.dropLast else r
    String.mk r
  else s

/-- Model of Python float formatting with spec ".{prec}g", as used by
f-strings in src/h5parse.py lines 42 and 44: round to `prec`
significant digits, use scientific form when the decimal exponent is
below -4 or at least `prec`, and strip trailing fractional zeros. -/
def fmtG (prec : Nat) (q : ℚ) : String :=
  if q.num = 0 then "0"
  else
    let sgn := if q.num < 0 then "-" else ""
    let n := q.num.natAbs
    let d := q.den
    let e := decExpND n d
    let p : Int := (prec : Int) - 1 - e
    let m0 := (if 0 ≤ p then roundFracHE ((n * 10 ^ p.toNat : Nat) : Int) ((d : Nat) : Int)
               else roundFracHE ((n : Nat) : Int) ((d * 10 ^ (-p).toNat : Nat) : Int)).toNat
    let me := if m0 = 10 ^ prec then (10 ^ (prec - 1), e + 1) else (m0, e)
    let m := me.1
    let e := me.2
    let ds := Nat.repr m
    if e < -4 ∨ (prec : Int) ≤ e then
      let mant := stripFrac (String.mk (ds.toList.take 1) ++ "." ++
                             String.mk (ds.toList.drop 1))
      sgn ++ mant ++ "e" ++ expSuffix e
    else if 0 ≤ e then
      let ip := ds.toList.take (e.toNat + 1)
      let fp := ds.toList.drop (e.toNat + 1)
      sgn ++ stripFrac (String.mk ip ++ "." ++ String.mk fp)
    else
      sgn ++ stripFrac ("0." ++ String.mk (List.replicate ((-e).toNat - 1) '0') ++ ds)

/-- Least k such that d divides 10 ^ k, searched with fuel; `none` when
there is no such k (denominator with a factor other than 2 and 5). -/
def decScale : Nat → Nat → Option Nat
  | _, 1 => some 0
  | 0, _ => none
  | fuel + 1, d =>
    let g := Nat.gcd 10 d
    if g = 1 then none
    else (decScale fuel (d / g)).map (· + 1)

/-- Model of Python str() on a numeric scalar holding the rational q:
integers render with a trailing ".0" (as float64 scalars do), other
decimally-representable values render with their finite decimal
expansion. -/
def numStr (q : ℚ) : String :=
  if q.den = 1 then toString q.num ++ ".0"
  else
    match decScale 64 q.den with
    | some k =>
      let sgn := if q.num < 0 then "-" else ""
      let n : Nat := q.num.natAbs * 10 ^ k / q.den
      let ds := Nat.repr n
      let ds := if ds.length ≤ k then
                  String.mk (List.replicate (k + 1 - ds.length) '0') ++ ds
                else ds
      sgn ++ String.mk (ds.toList.take (ds.length - k)) ++ "." ++
        String.mk (ds.toList.drop (ds.length - k))
    | none => toString q

/-- Python str() of a payload element (used by the fallback at
src/h5parse.py line 46 and by the data dumps). -/
def strElem : Elem → String
  | .num q => numStr q
  | .nan => "nan"
  | .weird s => s

/-- Python str() of a shape tuple, as in str(data.shape): "(3,)" for a
single dimension, "(2, 3)" for more. -/
def pyShapeStr : List Nat → String
  | [] => "()"
  | [n] => "(" ++ Nat.repr n ++ ",)"
  | ns => "(" ++ String.intercalate ", " (ns.map Nat.repr) ++ ")"

/-- Python str() of a list of strings, as in str(list(obj.keys())). -/
def pyStrList (ss : List String) : String :=
  "[" ++ String.intercalate ", " (ss.map (fun s => "\x27" ++ s ++ "\x27")) ++ "]"

/-- Numpy print options relevant to src/h5parse.py: the summarization
threshold and the line width set through np.set_printoptions. -/
structure PrintOpts where
  threshold : Nat
  linewidth : Nat
deriving DecidableEq

/-- Value of sys.maxsize on a 64-bit platform, passed to
np.set_printoptions by read_dataset (src/h5parse.py line 95). -/
def sysMaxsize : Nat := 2 ^ 63 - 1

/-- Numpy print options in force by default (numpy defaults:
threshold=1000, linewidth=75), as seen by preview_field. -/
def defaultPrintOpts : PrintOpts := ⟨1000, 75⟩

/-- Print options after np.set_printoptions(threshold=sys.maxsize,
linewidth=sys.maxsize) in read_dataset. -/
def maxPrintOpts : PrintOpts := ⟨sysMaxsize, sysMaxsize⟩

/-- Space-separated join of rendered elements. -/
def joinSp : List String → String
  | [] => ""
  | [s] => s
  | s :: rest => s ++ " " ++ joinSp rest

/-- Cost in characters of appending each further word to a line: one
separating space plus the word itself. -/
def lineCost : List String → Nat
  | [] => 0
  | s :: rest => 1 + s.length + lineCost rest

/-- Greedy line filling at width w: append the next word to the current
line when it fits, else break the line (models numpy array wrapping). -/
def npJoinAux (w : Nat) (cur : String) : List String → String
  | [] => cur
  | s :: rest =>
    if w < cur.length + 1 + s.length then cur ++ "\n " ++ npJoinAux w s rest
    else npJoinAux w (cur ++ " " ++ s) rest

/-- Join rendered elements into lines wrapped at width w. -/
def npJoinLines (w : Nat) : List String → String
  | [] => ""
  | s :: rest => npJoinAux w s rest

/-- Model of numpy str() of a materialized payload, flattened to one
dimension, under given print options (the external pretty-printer the
spec treats as opaque display text): payloads longer than the threshold
are summarized with an ellipsis showing three edge items on either
side, shorter ones are printed in full, wrapped at the line width. -/
def npArrayStr (opts : PrintOpts) (xs : List Elem) : String :=
  if opts.threshold < xs.length then
    "[" ++ joinSp ((xs.take 3).map strElem) ++ " ... " ++
      joinSp ((xs.drop (xs.length - 3)).map strElem) ++ "]"
  else "[" ++ npJoinLines opts.linewidth (xs.map strElem) ++ "]"

/-- Materialized dataset payload and identity, as read by meta_dict:
the h5py name (full path), str(data.dtype) when the payload exposes a
dtype, data.shape when the payload has one that is not None, the
flattened element vector data.reshape(-1), and the node attributes
(values already stringified, as get_attrs emits them). -/
structure DsetData where
  name : String
  dtypeOpt : Option String
  shapeOpt : Option (List Nat)
  values : List Elem
  attrs : List (String × String)

/-- Node of the HDF5 file as h5py hands it to this program: a group
with its name, iterable children (None for an unresolvable child, as
the guard at src/h5parse.py line 69 expects) and attributes; a dataset;
or an object that is neither (for example a committed datatype), which
meta_dict rejects at src/h5parse.py line 53. -/
inductive Node where
  | group (name : String) (children : List (String × Option Node))
      (attrs : List (String × String))
  | dset (d : DsetData)
  | datatype (name : String) (attrs : List (String × String))

/-- Name of a node (obj.name: the full path within the file). -/
def Node.name : Node → String
  | .group nm _ _ => nm
  | .dset d => d.name
  | .datatype nm _ => nm

/-- Attributes of a node (obj.attrs, values stringified). -/
def Node.attrs : Node → List (String × String)
  | .group _ _ a => a
  | .dset d => d.attrs
  | .datatype _ a => a

/-- Descriptor record produced by meta_dict: a group record, a dataset
record with shape, range and dtype fields, or the other placeholder
that get_fields substitutes for an unresolvable child. -/
inductive MetaDict where
  | group (name : String)
  | dataset (name shape range dtype : String)
  | other (name : String)
deriving DecidableEq

/-- Name field of a descriptor. -/
def MetaDict.getName : MetaDict → String
  | .group nm => nm
  | .dataset nm _ _ _ => nm
  | .other nm => nm

/-- Shape field of a dataset descriptor (empty for the others). -/
def MetaDict.getShape : MetaDict → String
  | .dataset _ s _ _ => s
  | _ => ""

/-- Range field of a dataset descriptor (empty for the others). -/
def MetaDict.getRange : MetaDict → String
  | .dataset _ _ r _ => r
  | _ => ""

/-- Dtype field of a dataset descriptor (empty for the others). -/
def MetaDict.getDtype : MetaDict → String
  | .dataset _ _ _ t => t
  | _ => ""

/-- Descriptor augmented with the stringified data payload, as returned
by preview_field and read_dataset. -/
structure MetaWithData where
  meta : MetaDict
  data : String
deriving DecidableEq

/-- Errors raised by src/h5parse.py, named as the spec names them:
KeyError from indexing the h5py file on an absent path is
pathNotFound; the bare Exceptions raised by get_fields, read_dataset,
get_attrs and meta_dict are notAGroup, notADataset, notAField and
notANode. -/
inductive H5Error where
  | pathNotFound (p : String)
  | notAGroup (p : String)
  | notADataset
  | notAField
  | notANode (name : String)
deriving DecidableEq

instance {ε α : Type} [DecidableEq ε] [DecidableEq α] :
    DecidableEq (Except ε α) := fun x y =>
  match x, y with
  | .ok a, .ok b =>
    if h : a = b then isTrue (by rw [h]) else isFalse (by simp [h])
  | .error a, .error b =>
    if h : a = b then isTrue (by rw [h]) else isFalse (by simp [h])
  | .ok _, .error _ => isFalse (by simp)
  | .error _, .ok _ => isFalse (by simp)

/-- Model of the try block at src/h5parse.py lines 34-44:
np.nanmin / np.nanmax of the flattened vector. The computation raises
(error) when an element does not support the reduction; an all-NaN
vector yields NaN, reported here as `none`; otherwise the minimum and
maximum of the non-NaN entries are returned. -/
def nanMinMax (xs : List Elem) : Except Unit (Option (ℚ × ℚ)) :=
  if xs.any Elem.isWeird then .error ()
  else
    match xs.filterMap Elem.toNum with
    | [] => .ok none
    | y :: ys => .ok (some (ys.foldl min y, ys.foldl max y))

/-- Range string computed at src/h5parse.py lines 34-46 for a nonempty
flattened vector: str(datavec[0]) when the min/max computation raises;
"nan" when the minimum is NaN; a single %.4g value when min equals max;
otherwise "min:max" with %.3g bounds. -/
def computeRange (xs : List Elem) : String :=
  match nanMinMax xs with
  | .error _ => strElem xs.headI
  | .ok none => "nan"
  | .ok (some (mn, mx)) =>
    if mn = mx then fmtG 4 mn else fmtG 3 mn ++ ":" ++ fmtG 3 mx

/-- Dataset branch of meta_dict (src/h5parse.py lines 20-51): dtype is
str(data.dtype) when the payload exposes one, else the literal
"object"; shape and range start as "scalar" and "" and are filled in
only when the payload has a non-None shape and the dtype is not
"object"; the range is computed only for a nonempty flattened vector. -/
def datasetMeta (d : DsetData) : MetaDict :=
  let dtype := match d.dtypeOpt with
    | some s => s
    | none => "object"
  match d.shapeOpt with
  | some shp =>
    if dtype = "object" then .dataset d.name "scalar" "" dtype
    else
      let shape := if 0 < shp.length then pyShapeStr shp else "scalar"
      let range := if 0 < d.values.length then computeRange d.values else ""
      .dataset d.name shape range dtype
  | none => .dataset d.name "scalar" "" dtype

/-- meta_dict (src/h5parse.py lines 13-54): a group descriptor for a
Group, a dataset descriptor for a Dataset, and an exception for
anything else. -/
def meta_dict : Node → Except H5Error MetaDict
  | .group nm _ _ => .ok (.group nm)
  | .dset d => .ok (datasetMeta d)
  | .datatype nm _ => .error (.notANode nm)

/-- Open HDF5 file handle as h5py exposes it to this program: path
lookup (None models a KeyError from indexing) and the membership test
used by the `in` operator. The two are independent operations of the
external library (a dangling link is contained but does not resolve). -/
structure H5Instance where
  resolve : String → Option Node
  contains : String → Bool

/-- is_field (src/h5parse.py lines 108-111): true for any path present
in the file. -/
def H5Instance.is_field (self : H5Instance) (field : String) : Bool :=
  self.contains field

/-- is_group (src/h5parse.py lines 99-106): false when the path is not
a field; otherwise resolve it (KeyError models as pathNotFound) and
report whether the object is a Group. -/
def H5Instance.is_group (self : H5Instance) (field : String) :
    Except H5Error Bool :=
  if self.is_field field then
    match self.resolve field with
    | none => .error (.pathNotFound field)
    | some obj =>
      match obj with
      | .group _ _ _ => .ok true
      | _ => .ok false
  else .ok false

/-- Loop body of get_fields (src/h5parse.py lines 67-73): one
descriptor per child, the other placeholder for a None child; an
exception from meta_dict aborts the whole loop. -/
def renderChildren : List (String × Option Node) →
    Except H5Error (List (String × MetaDict))
  | [] => .ok []
  | (cname, copt) :: rest =>
    match (match copt with
           | some cobj => meta_dict cobj
           | none => .ok (MetaDict.other cname)) with
    | .error e => .error e
    | .ok m =>
      match renderChildren rest with
      | .error e => .error e
      | .ok tail => .ok ((cname, m) :: tail)

/-- get_fields (src/h5parse.py lines 62-74): reject non-groups, then
render every child of the group. The arms other than a resolved group
are unreachable once is_group has returned true. -/
def H5Instance.get_fields (self : H5Instance) (root : String) :
    Except H5Error (List (String × MetaDict)) :=
  match self.is_group root with
  | .error e => .error e
  | .ok g =>
    if g then
      match self.resolve root with
      | none => .error (.pathNotFound root)
      | some (.group _ children _) => renderChildren children
      | some _ => .error (.notAGroup root)
    else .error (.notAGroup root)

/-- preview_field (src/h5parse.py lines 76-87): resolve the path, build
its descriptor, then attach the stringified list of child names for a
group or the stringified payload (under the print options in force,
the numpy defaults) for a dataset. The datatype arm is unreachable
because meta_dict has already raised. -/
def H5Instance.preview_field (self : H5Instance) (field : String) :
    Except H5Error MetaWithData :=
  match self.resolve field with
  | none => .error (.pathNotFound field)
  | some obj =>
    match meta_dict obj with
    | .error e => .error e
    | .ok m =>
      match obj with
      | .group _ children _ => .ok ⟨m, pyStrList (children.map Prod.fst)⟩
      | .dset d => .ok ⟨m, npArrayStr defaultPrintOpts d.values⟩
      | .datatype nm _ => .error (.notANode nm)

/-- read_dataset (src/h5parse.py lines 89-97): resolve the path, raise
for anything that is not a Dataset, otherwise return the descriptor
with the payload stringified under unrestricted print options. -/
def H5Instance.read_dataset (self : H5Instance) (field : String) :
    Except H5Error MetaWithData :=
  match self.resolve field with
  | none => .error (.pathNotFound field)
  | some obj =>
    match obj with
    | .dset d =>
      match meta_dict obj with
      | .error e => .error e
      | .ok m => .ok ⟨m, npArrayStr maxPrintOpts d.values⟩
    | _ => .error .notADataset

/-- get_attrs (src/h5parse.py lines 113-119): reject paths that are not
fields, then return the attribute mapping of the resolved node. -/
def H5Instance.get_attrs (self : H5Instance) (root : String) :
    Except H5Error (List (String × String)) :=
  if self.is_field root then
    match self.resolve root with
    | none => .error (.pathNotFound root)
    | some obj => .ok obj.attrs
  else .error .notAField

/-- Rendering of one child as the successful loop body of get_fields
produces it: the other placeholder (carrying the bare child name) for a
None child, the descriptor from meta_dict for a resolved group or
dataset. The datatype arm is never reached on inputs where the loop
succeeds. -/
def renderOk (pr : String × Option Node) : String × MetaDict :=
  match pr.2 with
  | none => (pr.1, .other pr.1)
  | some (.group nm _ _) => (pr.1, .group nm)
  | some (.dset d) => (pr.1, datasetMeta d)
  | some (.datatype nm _) => (pr.1, .other nm)

/-- Rendering of one child of the group at path p with the h5py naming
contract made explicit: resolved children carry their full path
p ++ "/" ++ childname in the name field, None children only the bare
child name. -/
def renderFull (p : String) (pr : String × Option Node) : String × MetaDict :=
  match pr.2 with
  | none => (pr.1, .other pr.1)
  | some (.group _ _ _) => (pr.1, .group (p ++ "/" ++ pr.1))
  | some (.dset d) => (pr.1, datasetMeta { d with name := p ++ "/" ++ pr.1 })
  | some (.datatype nm _) => (pr.1, .other nm)

/-- True unless the child resolved to an object that is neither a Group
nor a Dataset (the case on which meta_dict raises). -/
def goodChild (pr : String × Option Node) : Bool :=
  match pr.2 with
  | some (.datatype _ _) => false
  | _ => true

/-- True when a resolved child of the group at path p carries the full
path p ++ "/" ++ childname as its name, the naming contract h5py
guarantees for objects reached from a group (None children impose
nothing). -/
def namedUnder (p : String) (pr : String × Option Node) : Bool :=
  match pr.2 with
  | some n => n.name == p ++ "/" ++ pr.1
  | none => true

/-- Dataset /data/x with values [1.0, 2.0, 3.0] from the spec scenario. -/
def exDataX : DsetData := ⟨"/data/x", some "float64", some [3], [.num 1, .num 2, .num 3], []⟩

/-- Dataset whose two float64 values are both NaN. -/
def exAllNan : DsetData := ⟨"/n", some "float64", some [2], [.nan, .nan], []⟩

/-- Dataset of one compound-dtype element: the dtype is not "object",
yet np.nanmin raises on it, so the range falls back to str(datavec[0]). -/
def exWeird : DsetData := ⟨"/w", some "|V8", some [1], [.weird "(1, 2.0)"], []⟩

/-- File containing nothing at all. -/
def fEmpty : H5Instance := ⟨fun _ => none, fun _ => false⟩

/-- Group /data with the scenario dataset child x and one unresolvable
child named broken. -/
def gData : Node :=
  .group "/data" [("x", some (.dset exDataX)), ("broken", none)] []

/-- File with the group /data and its dataset /data/x. -/
def fData : H5Instance :=
  ⟨fun p => if p = "/data" then some gData
            else if p = "/data/x" then some (.dset exDataX) else none,
   fun p => p == "/data" || p == "/data/x"⟩

/-- Group /g whose children include a committed datatype /g/t between
two dataset siblings. -/
def gBad : Node :=
  .group "/g" [("a", some (.dset ⟨"/g/a", some "int64", some [1], [.num 5], []⟩)),
               ("t", some (.datatype "/g/t" [])),
               ("b", some (.dset ⟨"/g/b", some "int64", some [1], [.num 6], []⟩))] []

/-- File containing the group /g with a datatype child. -/
def fBad : H5Instance :=
  ⟨fun p => if p = "/g" then some gBad else none, fun p => p == "/g"⟩

theorem foldlMin_mem (ys : List ℚ) (y : ℚ) : ys.foldl min y ∈ y :: ys := by
  induction ys generalizing y with
  | nil => simp
  | cons a t ih =>
    rw [List.foldl_cons]
    rcases List.mem_cons.mp (ih (min y a)) with h1 | h1
    · rcases min_choice y a with hc | hc
      · rw [h1, hc]; exact List.mem_cons_self _ _
      · rw [h1, hc]; exact List.mem_cons_of_mem _ (List.mem_cons_self _ _)
    · exact List.mem_cons_of_mem _ (List.mem_cons_of_mem _ h1)

theorem foldlMin_le (ys : List ℚ) (y : ℚ) : ∀ z ∈ y :: ys, ys.foldl min y ≤ z := by
  induction ys generalizing y with
  | nil =>
    intro z hz
    rw [List.mem_singleton] at hz
    simp [hz]
  | cons a t ih =>
    intro z hz
    rw [List.foldl_cons]
    rcases List.mem_cons.mp hz with h1 | h1
    · rw [h1]
      exact le_trans (ih (min y a) (min y a) (List.mem_cons_self _ _)) (min_le_left _ _)
    · rcases List.mem_cons.mp h1 with h2 | h2
      · rw [h2]
        exact le_trans (ih (min y a) (min y a) (List.mem_cons_self _ _)) (min_le_right _ _)
      · exact ih (min y a) z (List.mem_cons_of_mem _ h2)

theorem foldlMin_eq (y mn : ℚ) (ys : List ℚ) (hmem : mn ∈ y :: ys)
    (hlb : ∀ z ∈ y :: ys, mn ≤ z) : ys.foldl min y = mn :=
  le_antisymm (foldlMin_le ys y mn hmem) (hlb _ (foldlMin_mem ys y))

theorem foldlMax_mem (ys : List ℚ) (y : ℚ) : ys.foldl max y ∈ y :: ys := by
  induction ys generalizing y with
  | nil => simp
  | cons a t ih =>
    rw [List.foldl_cons]
    rcases List.mem_cons.mp (ih (max y a)) with h1 | h1
    · rcases max_choice y a with hc | hc
      · rw [h1, hc]; exact List.mem_cons_self _ _
      · rw [h1, hc]; exact List.mem_cons_of_mem _ (List.mem_cons_self _ _)
    · exact List.mem_cons_of_mem _ (List.mem_cons_of_mem _ h1)

theorem foldlMax_ge (ys : List ℚ) (y : ℚ) : ∀ z ∈ y :: ys, z ≤ ys.foldl max y := by
  induction ys generalizing y with
  | nil =>
    intro z hz
    rw [List.mem_singleton] at hz
    simp [hz]
  | cons a t ih =>
    intro z hz
    rw [List.foldl_cons]
    rcases List.mem_cons.mp hz with h1 | h1
    · rw [h1]
      exact le_trans (le_max_left _ _) (ih (max y a) (max y a) (List.mem_cons_self _ _))
    · rcases List.mem_cons.mp h1 with h2 | h2
      · rw [h2]
        exact le_trans (le_max_right _ _) (ih (max y a) (max y a) (List.mem_cons_self _ _))
      · exact ih (max y a) z (List.mem_cons_of_mem _ h2)

theorem foldlMax_eq (y mx : ℚ) (ys : List ℚ) (hmem : mx ∈ y :: ys)
    (hub : ∀ z ∈ y :: ys, z ≤ mx) : ys.foldl max y = mx :=
  le_antisymm (hub _ (foldlMax_mem ys y)) (foldlMax_ge ys y mx hmem)

/-- Claim C1: for every Dataset with numeric (non-"object") dtype and at
least one element, the range field is computed from the minimum and
maximum of the values, ignoring NaN entries, and formatted as a single
%.4g value when the minimum equals the maximum and as "min:max" with
%.3g bounds otherwise. -/
theorem claim1_range_from_min_max (d : DsetData) (shp : List Nat) (t : String)
    (mn mx : ℚ)
    (hshape : d.shapeOpt = some shp)
    (hdty : d.dtypeOpt = some t)
    (ht : t ≠ "object")
    (hw : d.values.any Elem.isWeird = false)
    (hmn : mn ∈ d.values.filterMap Elem.toNum ∧
           ∀ z ∈ d.values.filterMap Elem.toNum, mn ≤ z)
    (hmx : mx ∈ d.values.filterMap Elem.toNum ∧
           ∀ z ∈ d.values.filterMap Elem.toNum, z ≤ mx) :
    (datasetMeta d).getRange =
      if mn = mx then fmtG 4 mn else fmtG 3 mn ++ ":" ++ fmtG 3 mx := by
  have hne : d.values ≠ [] := by
    intro h
    rw [h] at hmn
    simp at hmn
  have hlen : 0 < d.values.length := List.length_pos.mpr hne
  rcases hfm : d.values.filterMap Elem.toNum with _ | ⟨y, ys⟩
  · rw [hfm] at hmn
    simp at hmn
  · rw [hfm] at hmn hmx
    have hmin : ys.foldl min y = mn := foldlMin_eq y mn ys hmn.1 hmn.2
    have hmax : ys.foldl max y = mx := foldlMax_eq y mx ys hmx.1 hmx.2
    simp only [datasetMeta, hdty, hshape]
    rw [if_neg ht]
    simp only [MetaDict.getRange, if_pos hlen, computeRange, nanMinMax, hw,
      Bool.false_eq_true, if_false, hfm, hmin, hmax]

/-- Claim C2: a nonempty numeric Dataset whose elements are all NaN gets
the literal range "nan". -/
theorem claim2_all_nan_range (d : DsetData) (shp : List Nat) (t : String)
    (hshape : d.shapeOpt = some shp)
    (hdty : d.dtypeOpt = some t)
    (ht : t ≠ "object")
    (hne : d.values ≠ [])
    (hnan : ∀ x ∈ d.values, x = Elem.nan) :
    (datasetMeta d).getRange = "nan" := by
  have hlen : 0 < d.values.length := List.length_pos.mpr hne
  have hw : d.values.any Elem.isWeird = false := by
    rw [List.any_eq_false]
    intro x hx
    rw [hnan x hx]
    simp [Elem.isWeird]
  have hfm : d.values.filterMap Elem.toNum = [] := by
    rw [List.filterMap_eq_nil_iff]
    intro x hx
    rw [hnan x hx]
    rfl
  simp only [datasetMeta, hdty, hshape]
  rw [if_neg ht]
  simp only [MetaDict.getRange, if_pos hlen, computeRange, nanMinMax, hw,
    Bool.false_eq_true, if_false, hfm]

/-- Claim C3: a Dataset with zero elements has the empty string as its
range, whatever its name, dtype, shape and attributes are. -/
theorem claim3_empty_range (name : String) (dtypeOpt : Option String)
    (shapeOpt : Option (List Nat)) (attrs : List (String × String)) :
    (datasetMeta ⟨name, dtypeOpt, shapeOpt, [], attrs⟩).getRange = "" := by
  rcases dtypeOpt with _ | t
  · rcases shapeOpt with _ | shp <;> simp [datasetMeta, MetaDict.getRange]
  · rcases shapeOpt with _ | shp
    · simp [datasetMeta, MetaDict.getRange]
    · by_cases h : t = "object" <;> simp [datasetMeta, MetaDict.getRange, h]

/-- Witness for claim C1: the dataset [1.0, 2.0, 3.0] gets range "1:3". -/
theorem claim1_range_from_min_max_witness :
    (datasetMeta exDataX).getRange = "1:3" := by
  have h := claim1_range_from_min_max exDataX [3] "float64" 1 3 rfl rfl
    (by decide) (by decide) (by decide) (by decide)
  rw [h]
  decide

/-- Witness for claim C2: a dataset of two NaN values gets range "nan". -/
theorem claim2_all_nan_range_witness :
    (datasetMeta exAllNan).getRange = "nan" :=
  claim2_all_nan_range exAllNan [2] "float64" rfl rfl (by decide) (by decide)
    (by decide)

/-- Counterexample for claim C4: on the compound-dtype dataset exWeird,
where computing the min and max raises, the range is the string form of
the first flattened element and in particular is not the empty string
that section 3 of the spec promises for a not-computable range. -/
theorem claim4_counterexample :
    (datasetMeta exWeird).getRange = "(1, 2.0)" ∧
    (datasetMeta exWeird).getRange ≠ "" := by decide

/-- Claim C4 (amended): when the min/max computation raises on a
nonempty numeric dataset, the range falls back to the string form of
the first flattened element; it is not the empty string. -/
theorem claim4_fallback_first (d : DsetData) (shp : List Nat) (t : String)
    (hshape : d.shapeOpt = some shp)
    (hdty : d.dtypeOpt = some t)
    (ht : t ≠ "object")
    (hne : d.values ≠ [])
    (herr : nanMinMax d.values = .error ()) :
    (datasetMeta d).getRange = strElem d.values.headI := by
  have hlen : 0 < d.values.length := List.length_pos.mpr hne
  simp only [datasetMeta, hdty, hshape]
  rw [if_neg ht]
  simp only [MetaDict.getRange, if_pos hlen, computeRange, herr]

/-- Witness for the amended claim C4 at the dataset exWeird. -/
theorem claim4_fallback_first_witness :
    (datasetMeta exWeird).getRange = strElem exWeird.values.headI :=
  claim4_fallback_first exWeird [1] "|V8" rfl rfl (by decide) (by decide)
    (by decide)

/-- Claim C5: the dtype field is the payload dtype string when the
payload exposes one and the literal "object" otherwise; the shape field
is "scalar" when the payload has no dimensions or the dtype is
"object", and the stringified shape tuple otherwise. -/
theorem claim5_shape_dtype (d : DsetData) :
    (datasetMeta d).getDtype =
      (match d.dtypeOpt with | some s => s | none => "object") ∧
    (datasetMeta d).getShape =
      (if (d.shapeOpt.getD []).length = 0 ∨
          (match d.dtypeOpt with | some s => s | none => "object") = "object"
       then "scalar" else pyShapeStr (d.shapeOpt.getD [])) := by
  obtain ⟨nm, dt, sh, vs, att⟩ := d
  rcases dt with _ | t
  · rcases sh with _ | shp <;>
      simp [datasetMeta, MetaDict.getDtype, MetaDict.getShape]
  · rcases sh with _ | shp
    · simp [datasetMeta, MetaDict.getDtype, MetaDict.getShape]
    · by_cases h : t = "object"
      · simp [datasetMeta, MetaDict.getDtype, MetaDict.getShape, h]
      · rcases shp with _ | ⟨a, rest⟩
        · simp [datasetMeta, MetaDict.getDtype, MetaDict.getShape, h]
        · simp [datasetMeta, MetaDict.getDtype, MetaDict.getShape, h]

theorem renderChildren_ok (children : List (String × Option Node))
    (hgood : children.all goodChild = true) :
    renderChildren children = .ok (children.map renderOk) := by
  induction children with
  | nil => rfl
  | cons pr rest ih =>
    rw [List.all_cons, Bool.and_eq_true] at hgood
    have hrest := ih hgood.2
    obtain ⟨c, copt⟩ := pr
    rcases copt with _ | node
    · simp [renderChildren, hrest, renderOk]
    · rcases node with ⟨gnm, gch, gat⟩ | d | ⟨dn, da⟩
      · simp [renderChildren, meta_dict, hrest, renderOk]
      · simp [renderChildren, meta_dict, hrest, renderOk]
      · simp [goodChild] at hgood

theorem getFields_renders (f : H5Instance) (p nm : String)
    (children : List (String × Option Node)) (attrs : List (String × String))
    (hres : f.resolve p = some (.group nm children attrs))
    (hcon : f.contains p = true)
    (hgood : children.all goodChild = true) :
    f.get_fields p = .ok (children.map renderOk) := by
  have hg : f.is_group p = .ok true := by
    simp [H5Instance.is_group, H5Instance.is_field, hcon, hres]
  simp [H5Instance.get_fields, hg, hres, renderChildren_ok children hgood]

/-- Counterexample for claim C6: in the file fBad, the group /g has the
dataset children a and b and a committed-datatype child t; t is neither
a Group nor a Dataset, yet instead of the {type: "other"} placeholder
the enumeration aborts with the exception raised by meta_dict, so the
descriptors of the siblings a and b are lost as well. -/
theorem claim6_counterexample :
    fBad.get_fields "/g" = .error (.notANode "/g/t") := by decide

/-- Claim C6 (amended): for a group all of whose children are groups,
datasets, or unresolvable (None), get_fields returns exactly one
descriptor per direct child, the type matching the child's real kind
and the {type: "other", name} placeholder standing in for each
unresolvable child; however a child that resolves to an object that is
neither a Group nor a Dataset makes the whole enumeration raise. -/
theorem claim6_get_fields_ok (f : H5Instance) (p nm : String)
    (children : List (String × Option Node)) (attrs : List (String × String))
    (hres : f.resolve p = some (.group nm children attrs))
    (hcon : f.contains p = true)
    (hgood : children.all goodChild = true) :
    f.get_fields p = .ok (children.map renderOk) :=
  getFields_renders f p nm children attrs hres hcon hgood

/-- Witness for claim C6 on the file fData: the dataset child renders
as a dataset descriptor and the unresolvable child as the placeholder. -/
theorem claim6_get_fields_ok_witness :
    fData.get_fields "/data" =
      .ok [("x", .dataset "/data/x" "(3,)" "1:3" "float64"),
           ("broken", .other "broken")] := by
  have h := claim6_get_fields_ok fData "/data" "/data"
    [("x", some (.dset exDataX)), ("broken", none)] [] rfl rfl (by decide)
  rw [h]
  decide

/-- Counterexample for claim C7: on the absent path /missing, is_group
returns the normal false answer instead of raising PathNotFoundError. -/
theorem claim7_counterexample :
    fEmpty.resolve "/missing" = none ∧
    fEmpty.contains "/missing" = false ∧
    fEmpty.is_group "/missing" = .ok false :=
  ⟨rfl, rfl, rfl⟩

/-- Claim C7 (amended): on a path that does not resolve inside the
file, preview_field and read_dataset fail with PathNotFoundError, but
get_fields fails with NotAGroupError, get_attrs with NotAFieldError,
and is_group returns false without failing. -/
theorem claim7_absent_path (f : H5Instance) (p : String)
    (hc : f.contains p = false) (hr : f.resolve p = none) :
    f.is_group p = .ok false ∧
    f.get_fields p = .error (.notAGroup p) ∧
    f.get_attrs p = .error .notAField ∧
    f.preview_field p = .error (.pathNotFound p) ∧
    f.read_dataset p = .error (.pathNotFound p) := by
  have hg : f.is_group p = .ok false := by
    simp [H5Instance.is_group, H5Instance.is_field, hc]
  refine ⟨hg, ?_, ?_, ?_, ?_⟩
  · simp [H5Instance.get_fields, hg]
  · simp [H5Instance.get_attrs, H5Instance.is_field, hc]
  · simp [H5Instance.preview_field, hr]
  · simp [H5Instance.read_dataset, hr]

/-- Witness for the amended claim C7 at the empty file. -/
theorem claim7_absent_path_witness :
    fEmpty.is_group "/nope" = .ok false ∧
    fEmpty.get_fields "/nope" = .error (.notAGroup "/nope") ∧
    fEmpty.get_attrs "/nope" = .error .notAField ∧
    fEmpty.preview_field "/nope" = .error (.pathNotFound "/nope") ∧
    fEmpty.read_dataset "/nope" = .error (.pathNotFound "/nope") :=
  claim7_absent_path fEmpty "/nope" rfl rfl

/-- Claim C8: is_field is false (and total, hence raises nothing) on
any path the file does not contain, and is_group answers false whenever
is_field answers false. -/
theorem claim8_is_field_is_group (f : H5Instance) (p : String) :
    (f.contains p = false → f.is_field p = false) ∧
    (f.is_field p = false → f.is_group p = .ok false) := by
  constructor
  · intro h
    exact h
  · intro h
    simp [H5Instance.is_group, h]

/-- Witness for claim C8 at the empty file. -/
theorem claim8_is_field_is_group_witness :
    fEmpty.is_field "/nope" = false ∧ fEmpty.is_group "/nope" = .ok false :=
  ⟨(claim8_is_field_is_group fEmpty "/nope").1 rfl,
   (claim8_is_field_is_group fEmpty "/nope").2
     ((claim8_is_field_is_group fEmpty "/nope").1 rfl)⟩

theorem strAppend_assoc (a b c : String) : a ++ b ++ c = a ++ (b ++ c) := by
  obtain ⟨la⟩ := a
  obtain ⟨lb⟩ := b
  obtain ⟨lc⟩ := c
  exact congrArg String.mk (List.append_assoc la lb lc)

theorem joinSp_cons_cons (s a : String) (t : List String) :
    joinSp (s :: a :: t) = s ++ " " ++ joinSp (a :: t) := rfl

theorem length_joinSp (s : String) (ss : List String) :
    (joinSp (s :: ss)).length = s.length + lineCost ss := by
  induction ss generalizing s with
  | nil => simp [joinSp, lineCost]
  | cons a t ih =>
    rw [joinSp_cons_cons, String.length_append, String.length_append, ih a]
    have hsp : (" " : String).length = 1 := rfl
    rw [hsp, lineCost]
    omega

theorem npJoinAux_no_wrap (w : Nat) (ss : List String) : ∀ cur : String,
    cur.length + lineCost ss ≤ w → npJoinAux w cur ss = joinSp (cur :: ss) := by
  induction ss with
  | nil =>
    intro cur h
    rfl
  | cons s rest ih =>
    intro cur h
    rw [lineCost] at h
    rw [npJoinAux, if_neg (by omega)]
    have hlen : (cur ++ " " ++ s).length = cur.length + 1 + s.length := by
      rw [String.length_append, String.length_append]
      rfl
    rw [ih (cur ++ " " ++ s) (by omega)]
    cases rest with
    | nil => rfl
    | cons b t2 =>
      simp only [joinSp_cons_cons]
      simp only [strAppend_assoc]

theorem npArrayStr_full (xs : List Elem)
    (hlen : xs.length ≤ sysMaxsize)
    (hwidth : (joinSp (xs.map strElem)).length ≤ sysMaxsize) :
    npArrayStr maxPrintOpts xs = "[" ++ joinSp (xs.map strElem) ++ "]" := by
  unfold npArrayStr
  rw [if_neg (by simp only [maxPrintOpts]; omega)]
  cases hm : xs.map strElem with
  | nil =>
    simp only [hm, npJoinLines]
    decide
  | cons s t =>
    rw [hm] at hwidth
    rw [length_joinSp] at hwidth
    simp only [hm, npJoinLines]
    rw [npJoinAux_no_wrap maxPrintOpts.linewidth t s
      (by simpa [maxPrintOpts] using hwidth)]

/-- Claim C9: read_dataset raises NotADatasetError whenever the path
resolves to a node that is not a Dataset (a group, or any other object
kind); on a Dataset it returns the descriptor from meta_dict augmented
with the stringified full payload, and because the print options are
set to sys.maxsize the payload is rendered with no truncation and no
line wrapping for every payload a 64-bit process can hold. -/
theorem claim9_read_dataset (f : H5Instance) (p : String) :
    (∀ nm ch a, f.resolve p = some (.group nm ch a) →
       f.read_dataset p = .error .notADataset) ∧
    (∀ nm a, f.resolve p = some (.datatype nm a) →
       f.read_dataset p = .error .notADataset) ∧
    (∀ d, f.resolve p = some (.dset d) →
       f.read_dataset p = .ok ⟨datasetMeta d, npArrayStr maxPrintOpts d.values⟩ ∧
       (d.values.length ≤ sysMaxsize →
        (joinSp (d.values.map strElem)).length ≤ sysMaxsize →
        npArrayStr maxPrintOpts d.values =
          "[" ++ joinSp (d.values.map strElem) ++ "]")) := by
  refine ⟨?_, ?_, ?_⟩
  · intro nm ch a h
    simp [H5Instance.read_dataset, h]
  · intro nm a h
    simp [H5Instance.read_dataset, h]
  · intro d h
    refine ⟨?_, fun h1 h2 => npArrayStr_full d.values h1 h2⟩
    simp [H5Instance.read_dataset, h, meta_dict]

/-- Witness for claim C9: reading /data/x yields its descriptor with
the untruncated, unwrapped dump of [1.0, 2.0, 3.0], and reading the
group /data raises NotADatasetError. -/
theorem claim9_read_dataset_witness :
    fData.read_dataset "/data/x" =
      .ok ⟨.dataset "/data/x" "(3,)" "1:3" "float64", "[1.0 2.0 3.0]"⟩ ∧
    fData.read_dataset "/data" = .error .notADataset := by
  constructor
  · have h := (claim9_read_dataset fData "/data/x").2.2 exDataX rfl
    rw [h.1, h.2 (by decide) (by decide)]
    decide
  · exact (claim9_read_dataset fData "/data").1 "/data"
      [("x", some (.dset exDataX)), ("broken", none)] [] rfl

/-- Claim C10: under the h5py naming contract (a resolved child of the
group at path p is named p ++ "/" ++ childname), every group and
dataset descriptor that get_fields emits carries the full path in its
name field, while the {type: "other"} placeholder substituted for an
unresolvable child carries only the bare child name. -/
theorem claim10_names (f : H5Instance) (p nm : String)
    (children : List (String × Option Node)) (attrs : List (String × String))
    (hres : f.resolve p = some (.group nm children attrs))
    (hcon : f.contains p = true)
    (hgood : children.all goodChild = true)
    (hnames : children.all (namedUnder p) = true) :
    f.get_fields p = .ok (children.map (renderFull p)) := by
  rw [getFields_renders f p nm children attrs hres hcon hgood]
  congr 1
  apply List.map_congr_left
  intro pr hpr
  have hnm := List.all_eq_true.mp hnames pr hpr
  obtain ⟨c, copt⟩ := pr
  rcases copt with _ | node
  · rfl
  · rcases node with ⟨gnm, gch, gat⟩ | d | ⟨dn, da⟩
    · have : gnm = p ++ "/" ++ c := by
        simpa [namedUnder, Node.name] using hnm
      simp [renderOk, renderFull, this]
    · have hdn : d.name = p ++ "/" ++ c := by
        simpa [namedUnder, Node.name] using hnm
      have : ({ d with name := p ++ "/" ++ c } : DsetData) = d := by
        rw [← hdn]
      simp [renderOk, renderFull, this]
    · have := List.all_eq_true.mp hgood _ hpr
      simp [goodChild] at this

/-- Witness for claim C10 on the file fData: the dataset child renders
with its full path /data/x, the unresolvable child with the bare name
broken. -/
theorem claim10_names_witness :
    fData.get_fields "/data" =
      .ok [("x", .dataset "/data/x" "(3,)" "1:3" "float64"),
           ("broken", .other "broken")] := by
  have h := claim10_names fData "/data" "/data"
    [("x", some (.dset exDataX)), ("broken", none)] [] rfl rfl (by decide)
    (by decide)
  rw [h]
  decide
